import Mathlib

/-!
Shallow embedding of the pdf printer service
(src/src/app/pdf-printer/pdf-printer.service.ts).

JS numbers are modelled as rationals, JS Math.floor as the integer floor on
rationals, and the DOM / printing side effects of the async methods as an
explicit list of events paired with the outcome of the returned promise
(none for a resolved promise, some error for a rejection).  The async control
flow of the service is strictly sequential (each await finishes before the
next statement runs), so a single trace per input is a faithful model.
-/

namespace PdfPrinter

/-- Viewport data returned by pageView.pdfPage.getViewport with scale 1:
width, height and rotation of one page. -/
structure Viewport where
  width : ℚ
  height : ℚ
  rotation : ℕ
deriving Repr, DecidableEq

/-- The PageOverview interface of the service: width, height and rotation of
one page as used for printing. -/
structure PageOverview where
  width : ℚ
  height : ℚ
  rotation : ℕ
deriving Repr, DecidableEq

/-- The PrintItem interface of the service: the CSS width and height strings
of one rendered page. -/
structure PrintItem where
  width : String
  height : String
deriving Repr, DecidableEq

/-- Callback of the second map in getPagesOverview (lines 174-183): a page
kept as is when width is at most height, otherwise width and height swapped
and the rotation advanced by 90 degrees modulo 360. -/
def autoRotateSize (size : PageOverview) : PageOverview :=
  if size.width ≤ size.height then size
  else { width := size.height, height := size.width,
         rotation := (size.rotation + 90) % 360 }

/-- getPagesOverview (lines 159-184): read width, height and rotation from
each page viewport; when autoRotate is set, apply autoRotateSize to every
page. -/
def getPagesOverview (pages : List Viewport) (autoRotate : Bool) :
    List PageOverview :=
  let pagesOverview := pages.map fun pageView =>
    ({ width := pageView.width, height := pageView.height,
       rotation := pageView.rotation } : PageOverview)
  if !autoRotate then pagesOverview
  else pagesOverview.map autoRotateSize

/-- Result of renderPage: the pixel size given to the scratch canvas and the
returned PrintItem. -/
structure RenderedPage where
  canvasWidth : ℤ
  canvasHeight : ℤ
  printItem : PrintItem
deriving Repr, DecidableEq

/-- The CSS_UNITS constant of renderPage (line 195). -/
def CSS_UNITS : ℚ := 96 / 72

/-- renderPage (lines 186-228), restricted to its arithmetic: the scratch
canvas is resized to floor of width times PRINT_UNITS by floor of height
times PRINT_UNITS, where PRINT_UNITS is printResolution divided by 72 times
the scale 1, and the returned PrintItem holds the floors of width and height
times CSS_UNITS with a px suffix. -/
def renderPage (size : PageOverview) (printResolution : ℚ) : RenderedPage :=
  let printUnits := printResolution / 72
  let scale : ℚ := 1
  let printUnits := printUnits * scale
  { canvasWidth := ⌊size.width * printUnits⌋
    canvasHeight := ⌊size.height * printUnits⌋
    printItem :=
      { width := toString ⌊size.width * CSS_UNITS⌋ ++ "px"
        height := toString ⌊size.height * CSS_UNITS⌋ ++ "px" } }

/-- The DOM node built by useRenderedPage (lines 124-153): a wrapper div whose
children are img elements; imgCount counts them and the style fields are the
CSS width and height of the single img. -/
structure Wrapper where
  imgCount : ℕ
  imgStyleWidth : String
  imgStyleHeight : String
deriving Repr, DecidableEq

/-- useRenderedPage (lines 124-153), DOM part: one img element styled with the
width and height of the PrintItem, inside one wrapper div. -/
def useRenderedPage (printItem : PrintItem) : Wrapper :=
  { imgCount := 1
    imgStyleWidth := printItem.width
    imgStyleHeight := printItem.height }

/-- Observable events of one print call: DOM mutations of document.body and of
the iframe body, the console warning, render start and finish of a page, the
load or error callback of an appended img, and the native print dialog. -/
inductive Event where
  | appendIframe : Event
  | warnUnequalPageSizes : Event
  | renderBegin : ℕ → Event
  | renderEnd : ℕ → Event
  | appendWrapper : ℕ → Wrapper → Event
  | imgLoaded : ℕ → Event
  | imgError : ℕ → Event
  | invokePrintDialog : Event
  | removeIframe : Event
deriving Repr, DecidableEq

/-- Ways a print call can reject: reading the width of the undefined first
page overview of an empty document, or the onerror callback of the img of a
page firing. -/
inductive PrintError where
  | undefinedFirstPage : PrintError
  | imageLoadFailure : ℕ → PrintError
deriving Repr, DecidableEq

/-- The while loop of renderPages (lines 101-122) together with the promise of
useRenderedPage (lines 149-152): page pageNumber is rendered, its wrapper is
appended, and its image load is awaited before the next page starts; imgOk
tells for each page number whether its img fires onload or onerror, and an
onerror rejects and ends the loop. -/
def renderPagesLoop (printResolution : ℚ) (imgOk : ℕ → Bool) :
    List PageOverview → ℕ → List Event × Option PrintError
  | [], _ => ([], none)
  | size :: rest, pageNumber =>
    let wrapper := useRenderedPage (renderPage size printResolution).printItem
    let evs := [Event.renderBegin pageNumber, Event.renderEnd pageNumber,
                Event.appendWrapper pageNumber wrapper]
    if imgOk pageNumber then
      let next := renderPagesLoop printResolution imgOk rest (pageNumber + 1)
      (evs ++ Event.imgLoaded pageNumber :: next.1, next.2)
    else
      (evs ++ [Event.imgError pageNumber],
       some (PrintError.imageLoadFailure pageNumber))

/-- The hasEqualPageSizes check of print (lines 35-39): every page overview
has the same width and height as the first one.  On an empty overview the
every callback never runs and the check is vacuously true. -/
def hasEqualPageSizes (pagesOverview : List PageOverview) : Bool :=
  match pagesOverview with
  | [] => true
  | firstPageSize :: _ =>
    pagesOverview.all fun size =>
      decide (size.width = firstPageSize.width ∧
              size.height = firstPageSize.height)

/-- print (lines 25-99) as a trace of events paired with the outcome of its
promise.  The iframe is appended, the pages overview is computed, a warning
is emitted when the page sizes differ, and then, on an empty overview, the
access to the width of the undefined first overview throws; otherwise the
pages are rendered serially and, only when every page resolved, the dialog
of the iframe window is invoked and the iframe removed from document.body.
A rejection of the page loop skips both the dialog and the removal. -/
def print (pages : List Viewport) (printResolution : ℚ) (autoRotate : Bool)
    (imgOk : ℕ → Bool) : List Event × Option PrintError :=
  let pagesOverview := getPagesOverview pages autoRotate
  let warnEvents : List Event :=
    if hasEqualPageSizes pagesOverview then []
    else [Event.warnUnequalPageSizes]
  match pagesOverview with
  | [] =>
    (Event.appendIframe :: warnEvents, some PrintError.undefinedFirstPage)
  | _ :: _ =>
    let loop := renderPagesLoop printResolution imgOk pagesOverview 1
    match loop.2 with
    | some e => (Event.appendIframe :: (warnEvents ++ loop.1), some e)
    | none =>
      (Event.appendIframe :: (warnEvents ++ loop.1 ++
        [Event.invokePrintDialog, Event.removeIframe]), none)

/-- Expected trace of one page that renders and loads without error: render
start, render finish, wrapper appended, image loaded. -/
def pageBlock (printResolution : ℚ) (size : PageOverview) (pageNumber : ℕ) :
    List Event :=
  [Event.renderBegin pageNumber, Event.renderEnd pageNumber,
   Event.appendWrapper pageNumber
     (useRenderedPage (renderPage size printResolution).printItem),
   Event.imgLoaded pageNumber]

/-- Page numbers and wrappers of the appendWrapper events of a trace, in
trace order. -/
def wrapperEvents (trace : List Event) : List (ℕ × Wrapper) :=
  trace.filterMap fun e =>
    match e with
    | Event.appendWrapper k w => some (k, w)
    | _ => none

/-- When every image loads, the page loop resolves and its trace is the
serial concatenation of the per page blocks, numbered from start. -/
theorem renderPagesLoop_all_ok (r : ℚ) (overview : List PageOverview)
    (start : ℕ) :
    renderPagesLoop r (fun _ => true) overview start =
      ((List.zipWith (pageBlock r) overview
          (List.range' start overview.length)).flatten, none) := by
  induction overview generalizing start with
  | nil => simp [renderPagesLoop]
  | cons size rest ih =>
    simp [renderPagesLoop, List.range'_succ, ih (start + 1), pageBlock]

/-- A resolved page loop has the serial block trace, whatever imgOk did on
numbers outside the loop. -/
theorem renderPagesLoop_success (r : ℚ) (imgOk : ℕ → Bool)
    (overview : List PageOverview) (start : ℕ)
    (h : (renderPagesLoop r imgOk overview start).2 = none) :
    (renderPagesLoop r imgOk overview start).1 =
      (List.zipWith (pageBlock r) overview
        (List.range' start overview.length)).flatten := by
  induction overview generalizing start with
  | nil => simp [renderPagesLoop]
  | cons size rest ih =>
    by_cases hOk : imgOk start = true
    · have h2 : (renderPagesLoop r imgOk rest (start + 1)).2 = none := by
        simpa [renderPagesLoop, hOk] using h
      simp [renderPagesLoop, hOk, List.range'_succ, ih (start + 1) h2,
        pageBlock]
    · exfalso
      simp [renderPagesLoop, hOk] at h

/-- The page loop emits none of the events owned by print itself. -/
theorem renderPagesLoop_not_mem (r : ℚ) (imgOk : ℕ → Bool)
    (overview : List PageOverview) (start : ℕ) :
    Event.invokePrintDialog ∉ (renderPagesLoop r imgOk overview start).1 ∧
    Event.removeIframe ∉ (renderPagesLoop r imgOk overview start).1 ∧
    Event.appendIframe ∉ (renderPagesLoop r imgOk overview start).1 ∧
    Event.warnUnequalPageSizes ∉ (renderPagesLoop r imgOk overview start).1 := by
  induction overview generalizing start with
  | nil => simp [renderPagesLoop]
  | cons size rest ih =>
    by_cases hOk : imgOk start = true <;>
      simp [renderPagesLoop, hOk, (ih (start + 1)).1, (ih (start + 1)).2.1,
        (ih (start + 1)).2.2.1, (ih (start + 1)).2.2.2]

/-- A resolved page loop has loaded the image of every page it was given. -/
theorem renderPagesLoop_imgLoaded_mem (r : ℚ) (imgOk : ℕ → Bool)
    (overview : List PageOverview) (start : ℕ)
    (h : (renderPagesLoop r imgOk overview start).2 = none) :
    ∀ k ∈ List.range' start overview.length,
      Event.imgLoaded k ∈ (renderPagesLoop r imgOk overview start).1 := by
  induction overview generalizing start with
  | nil => simp
  | cons size rest ih =>
    by_cases hOk : imgOk start = true
    · intro k hk
      have h2 : (renderPagesLoop r imgOk rest (start + 1)).2 = none := by
        simpa [renderPagesLoop, hOk] using h
      rw [List.length_cons, List.range'_succ] at hk
      rcases List.mem_cons.mp hk with rfl | hk
      · simp [renderPagesLoop, hOk]
      · simp [renderPagesLoop, hOk, ih (start + 1) h2 k hk]
    · exfalso
      simp [renderPagesLoop, hOk] at h

/-- C3: with every image loading, the trace of the renderPages loop started
at page 1 over n pages is exactly block 1, block 2, ..., block n in that
order, one block per page, where the block of page k is render start k,
render finish k, wrapper append k, image load k: pages are requested once
each in ascending order and page k is fully finished before page k+1
starts. -/
theorem renderPages_serial (r : ℚ) (overview : List PageOverview) :
    renderPagesLoop r (fun _ => true) overview 1 =
      ((List.zipWith (pageBlock r) overview
          (List.range' 1 overview.length)).flatten, none) :=
  renderPagesLoop_all_ok r overview 1

/-- C1: getPagesOverview with autoRotate swaps width and height of every
landscape page (width strictly greater than height) and advances its rotation
by 90 degrees modulo 360, keeps every other page unchanged, and without
autoRotate returns every viewport size exactly as reported. -/
theorem getPagesOverview_autoRotate_spec (pages : List Viewport) :
    getPagesOverview pages true = (pages.map fun v =>
      if v.width > v.height then
        ({ width := v.height, height := v.width,
           rotation := (v.rotation + 90) % 360 } : PageOverview)
      else { width := v.width, height := v.height, rotation := v.rotation }) ∧
    getPagesOverview pages false = pages.map fun v =>
      { width := v.width, height := v.height, rotation := v.rotation } := by
  constructor
  · simp only [getPagesOverview, Bool.not_true, if_false, List.map_map]
    refine List.map_congr_left fun v _ => ?_
    by_cases h : v.width ≤ v.height
    · simp [autoRotateSize, h, not_lt.mpr h]
    · simp [autoRotateSize, h, lt_of_not_ge h]
  · simp [getPagesOverview]

/-- C2: renderPage sets the scratch canvas pixel size to the floor of
width times printResolution over 72 by the floor of height times
printResolution over 72, and returns CSS strings that are the floors of width
and height times 96 over 72 followed by px, independent of the resolution. -/
theorem renderPage_spec (size : PageOverview) (r : ℚ) :
    (renderPage size r).canvasWidth = ⌊size.width * r / 72⌋ ∧
    (renderPage size r).canvasHeight = ⌊size.height * r / 72⌋ ∧
    (renderPage size r).printItem.width =
      toString ⌊size.width * 96 / 72⌋ ++ "px" ∧
    (renderPage size r).printItem.height =
      toString ⌊size.height * 96 / 72⌋ ++ "px" ∧
    ∀ s : ℚ, (renderPage size s).printItem = (renderPage size r).printItem := by
  refine ⟨?_, ?_, ?_, ?_, fun s => rfl⟩ <;>
    simp [renderPage, CSS_UNITS, mul_one, mul_div_assoc]

/-- C9: on a document with zero pages, print appends the iframe, emits no
warning because the equal size check is vacuously true, and then rejects with
the access to the width of the undefined first page overview, before any page
is rendered. -/
theorem print_empty_document (r : ℚ) (autoRotate : Bool) (imgOk : ℕ → Bool) :
    print [] r autoRotate imgOk =
      ([Event.appendIframe], some PrintError.undefinedFirstPage) ∧
    Event.warnUnequalPageSizes ∉ (print [] r autoRotate imgOk).1 ∧
    ∀ k, Event.renderBegin k ∉ (print [] r autoRotate imgOk).1 := by
  have h : getPagesOverview [] autoRotate = [] := by
    simp [getPagesOverview]
  refine ⟨?_, ?_, ?_⟩ <;> simp [print, h, hasEqualPageSizes]

/-- C10: autoRotateSize always outputs a page with width at most height,
keeps a rotation from the set 0, 90, 180, 270 inside that set, preserves the
page area, and applying it twice equals applying it once. -/
theorem autoRotateSize_idempotent (size : PageOverview) :
    (autoRotateSize size).width ≤ (autoRotateSize size).height ∧
    ((size.rotation = 0 ∨ size.rotation = 90 ∨ size.rotation = 180 ∨
        size.rotation = 270) →
      ((autoRotateSize size).rotation = 0 ∨
       (autoRotateSize size).rotation = 90 ∨
       (autoRotateSize size).rotation = 180 ∨
       (autoRotateSize size).rotation = 270)) ∧
    (autoRotateSize size).width * (autoRotateSize size).height =
      size.width * size.height ∧
    autoRotateSize (autoRotateSize size) = autoRotateSize size := by
  by_cases h : size.width ≤ size.height
  · refine ⟨?_, ?_, ?_, ?_⟩
    · simp only [autoRotateSize, if_pos h]
      exact h
    · intro hr
      simp only [autoRotateSize, if_pos h]
      exact hr
    · simp [autoRotateSize, h]
    · simp [autoRotateSize, h]
  · have hlt : size.height < size.width := lt_of_not_ge h
    refine ⟨?_, ?_, ?_, ?_⟩
    · simp only [autoRotateSize, if_neg h]
      exact hlt.le
    · intro hr
      rcases hr with hr | hr | hr | hr <;>
        simp [autoRotateSize, h, hr]
    · simp only [autoRotateSize, if_neg h]
      exact mul_comm _ _
    · simp [autoRotateSize, h, hlt.le]

/-- Witness for C10 at a concrete landscape page with rotation 90: its
rotation stays in the set 0, 90, 180, 270. -/
theorem autoRotateSize_idempotent_witness :
    (autoRotateSize ⟨300, 200, 90⟩).rotation = 0 ∨
    (autoRotateSize ⟨300, 200, 90⟩).rotation = 90 ∨
    (autoRotateSize ⟨300, 200, 90⟩).rotation = 180 ∨
    (autoRotateSize ⟨300, 200, 90⟩).rotation = 270 :=
  (autoRotateSize_idempotent ⟨300, 200, 90⟩).2.1 (by decide)

/-- When the image of page k is the first one to fire onerror, the page loop
rejects with that page number and never starts a later page. -/
theorem renderPagesLoop_failure (r : ℚ) (imgOk : ℕ → Bool) (k : ℕ)
    (overview : List PageOverview) (start : ℕ)
    (hsk : start ≤ k) (hk : imgOk k = false)
    (hprev : ∀ j, start ≤ j → j < k → imgOk j = true)
    (hkn : k < start + overview.length) :
    (renderPagesLoop r imgOk overview start).2 =
      some (PrintError.imageLoadFailure k) ∧
    ∀ j, k < j →
      Event.renderBegin j ∉ (renderPagesLoop r imgOk overview start).1 := by
  induction overview generalizing start with
  | nil =>
    exact absurd hkn (by simpa using hsk)
  | cons size rest ih =>
    rcases eq_or_lt_of_le hsk with rfl | hlt
    · constructor
      · simp [renderPagesLoop, hk]
      · intro j hj
        simp [renderPagesLoop, hk]
        omega
    · have hOk : imgOk start = true := hprev start le_rfl hlt
      have hkn2 : k < (start + 1) + rest.length := by
        simp only [List.length_cons] at hkn
        omega
      have hrec := ih (start + 1) hlt
        (fun j hj hjk => hprev j (by omega) hjk) hkn2
      constructor
      · simp [renderPagesLoop, hOk, hrec.1]
      · intro j hj
        have hnot := hrec.2 j hj
        simp [renderPagesLoop, hOk, hnot]
        omega

/-- C7: when the image of page k is the first one to fire onerror, print
rejects with that failure, no page after k is rendered, the native dialog is
never invoked and the iframe is never removed. -/
theorem print_image_error_rejects (pages : List Viewport) (r : ℚ)
    (autoRotate : Bool) (imgOk : ℕ → Bool) (k : ℕ)
    (h1 : 1 ≤ k) (hk : imgOk k = false)
    (hprev : ∀ j, 1 ≤ j → j < k → imgOk j = true)
    (hkn : k ≤ (getPagesOverview pages autoRotate).length) :
    (print pages r autoRotate imgOk).2 =
      some (PrintError.imageLoadFailure k) ∧
    Event.invokePrintDialog ∉ (print pages r autoRotate imgOk).1 ∧
    Event.removeIframe ∉ (print pages r autoRotate imgOk).1 ∧
    ∀ j, k < j →
      Event.renderBegin j ∉ (print pages r autoRotate imgOk).1 := by
  cases hpo : getPagesOverview pages autoRotate with
  | nil =>
    rw [hpo] at hkn
    simp at hkn
    omega
  | cons first rest =>
    have hkn2 : k < 1 + (first :: rest).length := by
      rw [hpo] at hkn
      omega
    have hfail := renderPagesLoop_failure r imgOk k (first :: rest) 1 h1 hk
      hprev hkn2
    have hnm := renderPagesLoop_not_mem r imgOk (first :: rest) 1
    refine ⟨?_, ?_, ?_, ?_⟩
    · simp [print, hpo, hfail.1]
    · simp [print, hpo, hfail.1, hnm.1]
    · simp [print, hpo, hfail.1, hnm.2.1]
    · intro j hj
      simp [print, hpo, hfail.1, hfail.2 j hj]

/-- Witness for C7: a one page document whose image never loads rejects with
the failure of page 1, invokes no dialog, removes no iframe, and renders no
page after page 1. -/
theorem print_image_error_rejects_witness :
    (print [⟨100, 200, 0⟩] 300 true fun _ => false).2 =
      some (PrintError.imageLoadFailure 1) ∧
    Event.invokePrintDialog ∉ (print [⟨100, 200, 0⟩] 300 true fun _ => false).1 ∧
    Event.removeIframe ∉ (print [⟨100, 200, 0⟩] 300 true fun _ => false).1 ∧
    ∀ j, 1 < j →
      Event.renderBegin j ∉ (print [⟨100, 200, 0⟩] 300 true fun _ => false).1 :=
  print_image_error_rejects [⟨100, 200, 0⟩] 300 true (fun _ => false) 1
    le_rfl rfl (fun j hj hjk => absurd hjk (by omega)) (by decide)

/-- C5: in every resolved print call the native dialog of the iframe window
is invoked exactly once, and only after every page was rendered, appended and
its image loaded: the trace ends with the dialog invocation followed only by
the iframe removal, and the image of each of the n pages has loaded before
that point. -/
theorem print_dialog_once_after_pages (pages : List Viewport) (r : ℚ)
    (autoRotate : Bool) (imgOk : ℕ → Bool)
    (h : (print pages r autoRotate imgOk).2 = none) :
    (print pages r autoRotate imgOk).1.count Event.invokePrintDialog = 1 ∧
    ∃ pre,
      (print pages r autoRotate imgOk).1 =
        pre ++ [Event.invokePrintDialog, Event.removeIframe] ∧
      Event.invokePrintDialog ∉ pre ∧
      ∀ k ∈ List.range' 1 (getPagesOverview pages autoRotate).length,
        Event.imgLoaded k ∈ pre := by
  cases hpo : getPagesOverview pages autoRotate with
  | nil =>
    rw [show print pages r autoRotate imgOk =
      ([Event.appendIframe], some PrintError.undefinedFirstPage) by
        simp [print, hpo, hasEqualPageSizes]] at h
    exact absurd h (by simp)
  | cons first rest =>
    rcases hl : (renderPagesLoop r imgOk (first :: rest) 1).2 with _ | e
    · have hnm := renderPagesLoop_not_mem r imgOk (first :: rest) 1
      have hload := renderPagesLoop_imgLoaded_mem r imgOk (first :: rest) 1 hl
      refine ⟨?_, Event.appendIframe ::
          ((if hasEqualPageSizes (first :: rest) then []
            else [Event.warnUnequalPageSizes]) ++
            (renderPagesLoop r imgOk (first :: rest) 1).1), ?_, ?_, ?_⟩
      · by_cases hEq : hasEqualPageSizes (first :: rest) <;>
          simp [print, hpo, hl, hEq, List.count_append, List.count_cons,
            List.count_eq_zero_of_not_mem hnm.1]
      · by_cases hEq : hasEqualPageSizes (first :: rest) <;>
          simp [print, hpo, hl, hEq]
      · by_cases hEq : hasEqualPageSizes (first :: rest) <;>
          simp [hEq, hnm.1]
      · intro k hk
        by_cases hEq : hasEqualPageSizes (first :: rest) <;>
          simp [hEq, hload k hk]
    · rw [show (print pages r autoRotate imgOk).2 = some e by
        simp [print, hpo, hl]] at h
      exact absurd h (by simp)

/-- Witness for C5 at a one page document whose image loads. -/
theorem print_dialog_once_after_pages_witness :
    (print [⟨100, 200, 0⟩] 300 true fun _ => true).1.count
        Event.invokePrintDialog = 1 ∧
    ∃ pre,
      (print [⟨100, 200, 0⟩] 300 true fun _ => true).1 =
        pre ++ [Event.invokePrintDialog, Event.removeIframe] ∧
      Event.invokePrintDialog ∉ pre ∧
      ∀ k ∈ List.range' 1 (getPagesOverview [⟨100, 200, 0⟩] true).length,
        Event.imgLoaded k ∈ pre :=
  print_dialog_once_after_pages [⟨100, 200, 0⟩] 300 true (fun _ => true)
    (by decide)

/-- Counterexample to C8 as stated: on a one page document whose image fires
onerror, print appends the iframe to document.body but never removes it, so
the call does not leave document.body unchanged. -/
theorem print_body_restored_cex :
    Event.appendIframe ∈ (print [⟨100, 200, 0⟩] 300 true fun _ => false).1 ∧
    Event.removeIframe ∉ (print [⟨100, 200, 0⟩] 300 true fun _ => false).1 := by
  decide

/-- C8 amended: every print call whose promise resolves leaves document.body
unchanged: the trace starts with the iframe append and its one iframe removal
is its final event. -/
theorem print_success_removes_iframe (pages : List Viewport) (r : ℚ)
    (autoRotate : Bool) (imgOk : ℕ → Bool)
    (h : (print pages r autoRotate imgOk).2 = none) :
    ∃ pre,
      (print pages r autoRotate imgOk).1 = pre ++ [Event.removeIframe] ∧
      Event.removeIframe ∉ pre ∧
      (print pages r autoRotate imgOk).1.head? = some Event.appendIframe := by
  cases hpo : getPagesOverview pages autoRotate with
  | nil =>
    rw [show print pages r autoRotate imgOk =
      ([Event.appendIframe], some PrintError.undefinedFirstPage) by
        simp [print, hpo, hasEqualPageSizes]] at h
    exact absurd h (by simp)
  | cons first rest =>
    rcases hl : (renderPagesLoop r imgOk (first :: rest) 1).2 with _ | e
    · have hnm := renderPagesLoop_not_mem r imgOk (first :: rest) 1
      refine ⟨Event.appendIframe ::
          ((if hasEqualPageSizes (first :: rest) then []
            else [Event.warnUnequalPageSizes]) ++
            ((renderPagesLoop r imgOk (first :: rest) 1).1 ++
              [Event.invokePrintDialog])), ?_, ?_, ?_⟩
      · by_cases hEq : hasEqualPageSizes (first :: rest) <;>
          simp [print, hpo, hl, hEq]
      · by_cases hEq : hasEqualPageSizes (first :: rest) <;>
          simp [hEq, hnm.2.1]
      · by_cases hEq : hasEqualPageSizes (first :: rest) <;>
          simp [print, hpo, hl, hEq]
    · rw [show (print pages r autoRotate imgOk).2 = some e by
        simp [print, hpo, hl]] at h
      exact absurd h (by simp)

/-- Witness for the amended C8 at a one page document whose image loads. -/
theorem print_success_removes_iframe_witness :
    ∃ pre,
      (print [⟨120, 240, 0⟩] 300 true fun _ => true).1 =
        pre ++ [Event.removeIframe] ∧
      Event.removeIframe ∉ pre ∧
      (print [⟨120, 240, 0⟩] 300 true fun _ => true).1.head? =
        some Event.appendIframe :=
  print_success_removes_iframe [⟨120, 240, 0⟩] 300 true (fun _ => true)
    (by decide)

/-- The appendWrapper events of a resolved page loop are one per page, in
page order, with the wrapper built from that page's print item. -/
theorem wrapperEvents_renderPagesLoop (r : ℚ) (imgOk : ℕ → Bool)
    (overview : List PageOverview) (start : ℕ)
    (h : (renderPagesLoop r imgOk overview start).2 = none) :
    wrapperEvents (renderPagesLoop r imgOk overview start).1 =
      List.zipWith
        (fun k size => (k, useRenderedPage (renderPage size r).printItem))
        (List.range' start overview.length) overview := by
  induction overview generalizing start with
  | nil => simp [renderPagesLoop, wrapperEvents]
  | cons size rest ih =>
    by_cases hOk : imgOk start = true
    · have h2 : (renderPagesLoop r imgOk rest (start + 1)).2 = none := by
        simpa [renderPagesLoop, hOk] using h
      have ih2 := ih (start + 1) h2
      simp only [wrapperEvents] at ih2 ⊢
      simp [renderPagesLoop, hOk, List.range'_succ, ih2]
    · exfalso
      simp [renderPagesLoop, hOk] at h

/-- C6: a resolved print call appends exactly one wrapper per page, in page
order, each wrapper holding exactly one img whose CSS width and height are
the width and height of that page's print item. -/
theorem print_one_wrapper_per_page (pages : List Viewport) (r : ℚ)
    (autoRotate : Bool) (imgOk : ℕ → Bool)
    (h : (print pages r autoRotate imgOk).2 = none) :
    wrapperEvents (print pages r autoRotate imgOk).1 =
      List.zipWith
        (fun k size => (k, useRenderedPage (renderPage size r).printItem))
        (List.range' 1 (getPagesOverview pages autoRotate).length)
        (getPagesOverview pages autoRotate) ∧
    (wrapperEvents (print pages r autoRotate imgOk).1).length =
      (getPagesOverview pages autoRotate).length ∧
    ∀ item : PrintItem,
      (useRenderedPage item).imgCount = 1 ∧
      (useRenderedPage item).imgStyleWidth = item.width ∧
      (useRenderedPage item).imgStyleHeight = item.height := by
  cases hpo : getPagesOverview pages autoRotate with
  | nil =>
    rw [show print pages r autoRotate imgOk =
      ([Event.appendIframe], some PrintError.undefinedFirstPage) by
        simp [print, hpo, hasEqualPageSizes]] at h
    exact absurd h (by simp)
  | cons first rest =>
    rcases hl : (renderPagesLoop r imgOk (first :: rest) 1).2 with _ | e
    · have hw := wrapperEvents_renderPagesLoop r imgOk (first :: rest) 1 hl
      have htrace : wrapperEvents (print pages r autoRotate imgOk).1 =
          wrapperEvents (renderPagesLoop r imgOk (first :: rest) 1).1 := by
        by_cases hEq : hasEqualPageSizes (first :: rest) <;>
          simp [print, hpo, hl, hEq, wrapperEvents]
      refine ⟨htrace.trans hw, ?_, fun item => ⟨rfl, rfl, rfl⟩⟩
      rw [htrace.trans hw]
      simp
    · rw [show (print pages r autoRotate imgOk).2 = some e by
        simp [print, hpo, hl]] at h
      exact absurd h (by simp)

/-- Witness for C6 at a two page document whose images load. -/
theorem print_one_wrapper_per_page_witness :
    wrapperEvents (print [⟨100, 200, 0⟩, ⟨100, 200, 90⟩] 300 true
        fun _ => true).1 =
      List.zipWith
        (fun k size => (k, useRenderedPage (renderPage size 300).printItem))
        (List.range' 1
          (getPagesOverview [⟨100, 200, 0⟩, ⟨100, 200, 90⟩] true).length)
        (getPagesOverview [⟨100, 200, 0⟩, ⟨100, 200, 90⟩] true) ∧
    (wrapperEvents (print [⟨100, 200, 0⟩, ⟨100, 200, 90⟩] 300 true
        fun _ => true).1).length =
      (getPagesOverview [⟨100, 200, 0⟩, ⟨100, 200, 90⟩] true).length ∧
    ∀ item : PrintItem,
      (useRenderedPage item).imgCount = 1 ∧
      (useRenderedPage item).imgStyleWidth = item.width ∧
      (useRenderedPage item).imgStyleHeight = item.height :=
  print_one_wrapper_per_page [⟨100, 200, 0⟩, ⟨100, 200, 90⟩] 300 true
    (fun _ => true) (by decide)

/-- C4: print warns exactly once, namely if and only if some page overview
differs from the first one in width or height after optional auto rotation;
everything else in the trace and the outcome are the same function of the
page loop either way, so processing continues identically. -/
theorem print_warning_iff (pages : List Viewport) (r : ℚ) (autoRotate : Bool)
    (imgOk : ℕ → Bool) (first : PageOverview) (rest : List PageOverview)
    (h : getPagesOverview pages autoRotate = first :: rest) :
    ((print pages r autoRotate imgOk).1.count Event.warnUnequalPageSizes =
      if ∃ size ∈ getPagesOverview pages autoRotate,
          size.width ≠ first.width ∨ size.height ≠ first.height
      then 1 else 0) ∧
    (print pages r autoRotate imgOk).2 =
      (renderPagesLoop r imgOk (getPagesOverview pages autoRotate) 1).2 ∧
    (print pages r autoRotate imgOk).1.filter
        (fun e => !(e == Event.warnUnequalPageSizes)) =
      Event.appendIframe ::
        ((renderPagesLoop r imgOk (getPagesOverview pages autoRotate) 1).1 ++
          match (renderPagesLoop r imgOk
              (getPagesOverview pages autoRotate) 1).2 with
          | none => [Event.invokePrintDialog, Event.removeIframe]
          | some _ => []) := by
  have hKey : (hasEqualPageSizes (first :: rest) = true) ↔
      ¬ ∃ size ∈ first :: rest,
        size.width ≠ first.width ∨ size.height ≠ first.height := by
    simp only [hasEqualPageSizes]
    constructor
    · intro hEq hex
      rcases hex with ⟨size, hs, hOr⟩
      have hsz := List.all_eq_true.mp hEq size hs
      rw [decide_eq_true_eq] at hsz
      rcases hOr with hw | hh
      · exact hw hsz.1
      · exact hh hsz.2
    · intro hex
      apply List.all_eq_true.mpr
      intro size hs
      rw [decide_eq_true_eq]
      constructor
      · by_contra hc
        exact hex ⟨size, hs, Or.inl hc⟩
      · by_contra hc
        exact hex ⟨size, hs, Or.inr hc⟩
  have hnm := renderPagesLoop_not_mem r imgOk (first :: rest) 1
  have hcnt0 : (renderPagesLoop r imgOk (first :: rest) 1).1.count
      Event.warnUnequalPageSizes = 0 :=
    List.count_eq_zero_of_not_mem hnm.2.2.2
  have hfilt : (renderPagesLoop r imgOk (first :: rest) 1).1.filter
      (fun e => !(e == Event.warnUnequalPageSizes)) =
      (renderPagesLoop r imgOk (first :: rest) 1).1 := by
    apply List.filter_eq_self.mpr
    intro a ha
    have hne : a ≠ Event.warnUnequalPageSizes := fun hEq => hnm.2.2.2 (hEq ▸ ha)
    simp [hne]
  by_cases hEq : hasEqualPageSizes (first :: rest) = true
  · have hP := hKey.mp hEq
    rcases hl : (renderPagesLoop r imgOk (first :: rest) 1).2 with _ | e <;>
      refine ⟨?_, ?_, ?_⟩
    · rw [h, if_neg hP]
      simp [print, h, hl, hEq, List.count_append, List.count_cons, hcnt0]
    · simp [print, h, hl, hEq]
    · simp [print, h, hl, hEq, List.filter_append, hfilt]
    · rw [h, if_neg hP]
      simp [print, h, hl, hEq, List.count_append, List.count_cons, hcnt0]
    · simp [print, h, hl, hEq]
    · simp [print, h, hl, hEq, List.filter_append, hfilt]
  · have hP : ∃ size ∈ first :: rest,
        size.width ≠ first.width ∨ size.height ≠ first.height :=
      by_contra fun hnp => hEq (hKey.mpr hnp)
    rcases hl : (renderPagesLoop r imgOk (first :: rest) 1).2 with _ | e <;>
      refine ⟨?_, ?_, ?_⟩
    · rw [h, if_pos hP]
      simp [print, h, hl, hEq, List.count_append, List.count_cons, hcnt0]
    · simp [print, h, hl, hEq]
    · simp [print, h, hl, hEq, List.filter_append, hfilt]
    · rw [h, if_pos hP]
      simp [print, h, hl, hEq, List.count_append, List.count_cons, hcnt0]
    · simp [print, h, hl, hEq]
    · simp [print, h, hl, hEq, List.filter_append, hfilt]

/-- Witness for C4 at a two page document with unequal sizes: exactly one
warning is emitted and the rest of the run is unaffected. -/
theorem print_warning_iff_witness :
    ((print [⟨100, 200, 0⟩, ⟨150, 200, 0⟩] 300 false fun _ => true).1.count
        Event.warnUnequalPageSizes =
      if ∃ size ∈ getPagesOverview [⟨100, 200, 0⟩, ⟨150, 200, 0⟩] false,
          size.width ≠ (⟨100, 200, 0⟩ : PageOverview).width ∨
          size.height ≠ (⟨100, 200, 0⟩ : PageOverview).height
      then 1 else 0) ∧
    (print [⟨100, 200, 0⟩, ⟨150, 200, 0⟩] 300 false fun _ => true).2 =
      (renderPagesLoop 300 (fun _ => true)
        (getPagesOverview [⟨100, 200, 0⟩, ⟨150, 200, 0⟩] false) 1).2 ∧
    (print [⟨100, 200, 0⟩, ⟨150, 200, 0⟩] 300 false fun _ => true).1.filter
        (fun e => !(e == Event.warnUnequalPageSizes)) =
      Event.appendIframe ::
        ((renderPagesLoop 300 (fun _ => true)
            (getPagesOverview [⟨100, 200, 0⟩, ⟨150, 200, 0⟩] false) 1).1 ++
          match (renderPagesLoop 300 (fun _ => true)
              (getPagesOverview [⟨100, 200, 0⟩, ⟨150, 200, 0⟩] false) 1).2 with
          | none => [Event.invokePrintDialog, Event.removeIframe]
          | some _ => []) :=
  print_warning_iff [⟨100, 200, 0⟩, ⟨150, 200, 0⟩] 300 false (fun _ => true)
    ⟨100, 200, 0⟩ [⟨150, 200, 0⟩] (by decide)

end PdfPrinter
